import Mathlib

/-!
Verification of the interactive detection-to-replacement pipeline of the
grok-web-automation repository, as a shallow embedding in Lean 4.

JavaScript numbers are modelled by `ℚ` (the code never relies on float
rounding in the properties treated here; divergences such as `NaN` and the
inexactness of `Math.sqrt` on non-square inputs are noted at the definition
that models them). Fallible image operations return explicit result records
mirroring the source's result objects. External collaborators (HTTP
detectors, the image generator, the sharp raster library) enter the model as
explicit parameters or as the documented contract of the library call.
-/

/-- A point of a drawing path or polygon,`{x, y}` in canvas coordinates
(pen-selector.tsx). -/
structure Pt where
  x : ℚ
  y : ℚ
deriving DecidableEq, Repr

/-- The `DetectedObject` record of pen-selector.tsx (interface at lines
22-33), together with the two fields (`yoloEquivalent`,
`segmentationNote`) that the fusion step adds dynamically to kept
lower-priority detections. Optional fields are `Option`s. -/
structure DetectedObject where
  name : String
  confidence : ℚ
  x : ℚ
  y : ℚ
  width : ℚ
  height : ℚ
  refinedPath : Option String := none
  segmentation : Option (List ℚ) := none
  source : Option String := none
  canSegment : Option Bool := none
  yoloEquivalent : Option String := none
  segmentationNote : Option String := none
deriving DecidableEq, Repr

/-- Intersection-over-union of the bounding boxes of two detections: the
arithmetic of `objectsOverlap` in pen-selector.tsx lines 76-90 up to its
final comparison. In ℚ the degenerate `0/0` (two zero-area disjoint boxes)
is `0`, where JS produces `NaN`; both fail the `> threshold` test for the
nonnegative thresholds the caller uses. -/
def iouRatio (obj1 obj2 : DetectedObject) : ℚ :=
  let obj1Right := obj1.x + obj1.width
  let obj1Bottom := obj1.y + obj1.height
  let obj2Right := obj2.x + obj2.width
  let obj2Bottom := obj2.y + obj2.height
  let overlapX := max 0 (min obj1Right obj2Right - max obj1.x obj2.x)
  let overlapY := max 0 (min obj1Bottom obj2Bottom - max obj1.y obj2.y)
  let overlapArea := overlapX * overlapY
  let obj1Area := obj1.width * obj1.height
  let obj2Area := obj2.width * obj2.height
  let unionArea := obj1Area + obj2Area - overlapArea
  overlapArea / unionArea

/-- `objectsOverlap(obj1, obj2, threshold)` of pen-selector.tsx lines 76-91:
true when the IoU of the two bounding boxes strictly exceeds `threshold`. -/
def objectsOverlap (obj1 obj2 : DetectedObject) (threshold : ℚ) : Bool :=
  decide (threshold < iouRatio obj1 obj2)

/-- The 80 COCO class names of `YOLO11APIDetector.supportedClasses`
(yolo11-api, part_009 lines 8-19). -/
def supportedClasses : List String :=
  ["person", "bicycle", "car", "motorcycle", "airplane", "bus", "train", "truck", "boat",
   "traffic light", "fire hydrant", "stop sign", "parking meter", "bench", "bird", "cat",
   "dog", "horse", "sheep", "cow", "elephant", "bear", "zebra", "giraffe", "backpack",
   "umbrella", "handbag", "tie", "suitcase", "frisbee", "skis", "snowboard", "sports ball",
   "kite", "baseball bat", "baseball glove", "skateboard", "surfboard", "tennis racket",
   "bottle", "wine glass", "cup", "fork", "knife", "spoon", "bowl", "banana", "apple",
   "sandwich", "orange", "broccoli", "carrot", "hot dog", "pizza", "donut", "cake",
   "chair", "couch", "potted plant", "bed", "dining table", "toilet", "tv", "laptop",
   "mouse", "remote", "keyboard", "cell phone", "microwave", "oven", "toaster", "sink",
   "refrigerator", "book", "clock", "vase", "scissors", "teddy bear", "hair drier", "toothbrush"]

/-- `YOLO11APIDetector.canSegment(objectName)` for the exported
`yolo11APIDetector` instance used by pen-selector (constructed with
`useCustomModel = false`, part_009 lines 162-166): membership of the
lower-cased name in the COCO class list. -/
def canSegmentName (objectName : String) : Bool :=
  supportedClasses.contains objectName.toLower

/-- The approximate class mappings of `mapToYOLOClass` (part_009 lines
53-62). -/
def yoloClassMappings : List (String × String) :=
  [("sofa", "couch"), ("table", "dining table"), ("television", "tv"),
   ("plant", "potted plant"), ("lamp", "tv"), ("lighting", "tv"),
   ("picture frame", "book"), ("cabinetry", "refrigerator")]

/-- `YOLO11APIDetector.mapToYOLOClass(objectName)` (part_009 lines 44-65):
the direct COCO match of the lower-cased name, else a table lookup, else
`null`. -/
def mapToYOLOClass (objectName : String) : Option String :=
  let name := objectName.toLower
  if supportedClasses.contains name then some name
  else (yoloClassMappings.find? (fun p => p.1 == name)).map Prod.snd

/-- Tag applied to an accepted highest-priority (YOLO) detection in fusion
(pen-selector.tsx lines 157-161): spread with `source` and `canSegment`
overridden. -/
def yoloTag (obj : DetectedObject) : DetectedObject :=
  { obj with source := some "YOLO11", canSegment := some true }

/-- Tag applied to a kept lower-priority (Google Vision) detection
(pen-selector.tsx lines 177-186). The JS default `confidence || 0.6`
replaces a falsy (zero) confidence by 0.6. The `segmentationNote` strings
paraphrase the source's template literals without the interpolated quotes. -/
def googleTag (obj : DetectedObject) : DetectedObject :=
  { obj with
    confidence := if obj.confidence = 0 then 0.6 else obj.confidence
    source := some "Google Vision"
    canSegment := some (canSegmentName obj.name)
    yoloEquivalent := mapToYOLOClass obj.name
    segmentationNote := some (if canSegmentName obj.name
      then "Can be re-detected with YOLO for segmentation as " ++ ((mapToYOLOClass obj.name).getD "")
      else "No YOLO equivalent - bounding box only") }

/-- The overlap test a lower-priority detection faces in fusion
(pen-selector.tsx lines 166-170): `some` over ALL detections reported by the
higher-priority detector (not only the accepted ones), with IoU strictly
above 0.3, or strictly above 0.1 when the lower-cased names coincide. -/
def hasOverlapWithYolo (googleObj : DetectedObject) (yoloObjects : List DetectedObject) : Bool :=
  yoloObjects.any (fun yoloObj =>
    objectsOverlap googleObj yoloObj 0.3 ||
    (googleObj.name.toLower == yoloObj.name.toLower && objectsOverlap googleObj yoloObj 0.1))

/-- The highest-priority detections fusion accepts (pen-selector.tsx line
156): confidence `>=` the 0.35 acceptance threshold. -/
def highConfidenceYolo (yoloObjects : List DetectedObject) : List DetectedObject :=
  yoloObjects.filter (fun obj => decide ((0.35 : ℚ) ≤ obj.confidence))

/-- The `for`-loop over Google detections in fusion (pen-selector.tsx lines
165-196): each detection is dropped when `hasOverlapWithYolo`, otherwise its
tagged version is appended. -/
def processGoogleObjects (yoloObjects : List DetectedObject) :
    List DetectedObject → List DetectedObject
  | [] => []
  | g :: rest =>
    if hasOverlapWithYolo g yoloObjects then processGoogleObjects yoloObjects rest
    else googleTag g :: processGoogleObjects yoloObjects rest

/-- The fused detection list built by `recognitionMutation.mutationFn`
(pen-selector.tsx lines 149-198): tagged accepted YOLO detections first,
then the surviving tagged Google detections in order. -/
def hybridObjects (yoloObjects googleObjects : List DetectedObject) : List DetectedObject :=
  (highConfidenceYolo yoloObjects).map yoloTag ++ processGoogleObjects yoloObjects googleObjects

/-- A pixel-space rectangle `{x, y, width, height}` in rational
coordinates. -/
structure BBox where
  x : ℚ
  y : ℚ
  width : ℚ
  height : ℚ
deriving DecidableEq, Repr

/-- Minimum of a list of rationals, `Math.min(...xs)` for a nonempty `xs`.
On the empty list JS yields `Infinity`; the model returns the dummy `0` and
every theorem that uses it assumes a nonempty path. -/
def qMin : List ℚ → ℚ
  | [] => 0
  | a :: as => as.foldl min a

/-- Maximum of a list of rationals, `Math.max(...xs)` for a nonempty `xs`
(dummy `0` on `[]`, excluded by hypotheses as for `qMin`). -/
def qMax : List ℚ → ℚ
  | [] => 0
  | a :: as => as.foldl max a

/-- `getPathBounds(path)` of pen-selector.tsx lines 548-564: the axis-aligned
bounding box of the path points, the zero box for an empty path. -/
def getPathBounds (path : List Pt) : BBox :=
  if path.isEmpty then ⟨0, 0, 0, 0⟩
  else
    let xs := path.map Pt.x
    let ys := path.map Pt.y
    ⟨qMin xs, qMin ys, qMax xs - qMin xs, qMax ys - qMin ys⟩

/-- The edges `(path[i], path[j])` with `j = i-1 mod n` traversed by the
ray-casting loop of `isPointInPath` (pen-selector.tsx lines 538-543): each
point paired with its predecessor, the first with the last. -/
def edgePairs (path : List Pt) : List (Pt × Pt) :=
  match path.getLast? with
  | none => []
  | some last => path.zip (last :: path.dropLast)

/-- The crossing test of one loop iteration of `isPointInPath`
(pen-selector.tsx lines 539-540). When `pi.y = pj.y` the first conjunct is
false, so the total division (`0` in ℚ, `NaN` in JS) is never the deciding
factor, exactly as under JS short-circuiting. -/
def rayCrossing (x y : ℚ) (pi pj : Pt) : Bool :=
  (decide (y < pi.y) != decide (y < pj.y)) &&
  decide (x < (pj.x - pi.x) * (y - pi.y) / (pj.y - pi.y) + pi.x)

/-- `isPointInPath(x, y, path)` of pen-selector.tsx lines 535-545: ray
casting; a path with fewer than 3 points contains nothing. -/
def isPointInPath (x y : ℚ) (path : List Pt) : Bool :=
  if path.length < 3 then false
  else (edgePairs path).foldl (fun inside e => if rayCrossing x y e.1 e.2 then !inside else inside) false

/-- `calculateEnclosureScore(path, obj)` of pen-selector.tsx lines 503-519:
the fraction of a 15x15 sample grid over the object's bounding box that
falls inside the drawn path. -/
def calculateEnclosureScore (path : List Pt) (obj : DetectedObject) : ℚ :=
  let samplePoints : ℕ := 15
  let grid := (List.range samplePoints).flatMap (fun i => (List.range samplePoints).map (fun j => (i, j)))
  let enclosedPoints := grid.countP (fun p =>
    isPointInPath (obj.x + obj.width * p.1 / (samplePoints - 1))
      (obj.y + obj.height * p.2 / (samplePoints - 1)) path)
  (enclosedPoints : ℚ) / ((samplePoints : ℚ) * samplePoints)

/-- `calculateContainmentScore(path, obj)` of pen-selector.tsx lines
522-532: the fraction of the object's four bounding-box corners inside the
drawn path. -/
def calculateContainmentScore (path : List Pt) (obj : DetectedObject) : ℚ :=
  let objCorners : List Pt :=
    [⟨obj.x, obj.y⟩, ⟨obj.x + obj.width, obj.y⟩,
     ⟨obj.x + obj.width, obj.y + obj.height⟩, ⟨obj.x, obj.y + obj.height⟩]
  let containedCorners := objCorners.filter (fun c => isPointInPath c.x c.y path)
  (containedCorners.length : ℚ) / (objCorners.length : ℚ)

/-- Model of `Math.sqrt` on ℚ: exact on arguments whose reduced numerator
and denominator are perfect squares (every concrete input used by a theorem
below), the floor square root componentwise otherwise, `0` on nonpositive
input. -/
def sqrtQ (q : ℚ) : ℚ :=
  if q ≤ 0 then 0 else (Nat.sqrt q.num.toNat : ℚ) / (Nat.sqrt q.den : ℚ)

/-- Squared Euclidean distance from the path-bounds center to the object
center, the argument of the `Math.sqrt` at pen-selector.tsx lines 436-439. -/
def centerDistSq (path : List Pt) (obj : DetectedObject) : ℚ :=
  let pathBounds := getPathBounds path
  let pathCenterX := pathBounds.x + pathBounds.width / 2
  let pathCenterY := pathBounds.y + pathBounds.height / 2
  let objCenterX := obj.x + obj.width / 2
  let objCenterY := obj.y + obj.height / 2
  (pathCenterX - objCenterX) ^ 2 + (pathCenterY - objCenterY) ^ 2

/-- Squared diagonal of the path bounds, the argument of the `Math.sqrt` at
pen-selector.tsx line 440. -/
def pathDiagSq (path : List Pt) : ℚ :=
  let pathBounds := getPathBounds path
  pathBounds.width ^ 2 + pathBounds.height ^ 2

/-- The five normalized factors of one scored candidate
(`ScoredCandidate.factors`). -/
structure Factors where
  enclosure : ℚ
  distance : ℚ
  size : ℚ
  confidence : ℚ
  containment : ℚ
deriving DecidableEq, Repr

/-- One scored candidate as built by the `objects.map` of
`analyzeUserIntention` (pen-selector.tsx lines 462-472). -/
structure ScoredObject where
  object : DetectedObject
  score : ℚ
  factors : Factors
deriving DecidableEq, Repr

/-- The per-candidate scoring body of `analyzeUserIntention`
(pen-selector.tsx lines 428-472): five factors combined with weights
0.3/0.2/0.15/0.15/0.2. -/
def scoreObject (path : List Pt) (obj : DetectedObject) : ScoredObject :=
  let pathBounds := getPathBounds path
  let pathArea := pathBounds.width * pathBounds.height
  let objArea := obj.width * obj.height
  let enclosureScore := calculateEnclosureScore path obj
  let distance := sqrtQ (centerDistSq path obj)
  let maxDistance := sqrtQ (pathDiagSq path)
  let distanceScore := 1 - distance / max maxDistance 1
  let sizeRatio := min pathArea objArea / max pathArea objArea
  let sizeScore := sizeRatio
  let confidenceScore := obj.confidence
  let containmentScore := calculateContainmentScore path obj
  let totalScore := enclosureScore * 0.3 + distanceScore * 0.2 + sizeScore * 0.15 +
    confidenceScore * 0.15 + containmentScore * 0.2
  { object := obj, score := totalScore,
    factors := { enclosure := enclosureScore, distance := distanceScore, size := sizeScore,
                 confidence := confidenceScore, containment := containmentScore } }

/-- Descending-score order of the `sort((a, b) => b.score - a.score)` at
pen-selector.tsx line 476. -/
def scoreGe (a b : ScoredObject) : Prop := b.score ≤ a.score

instance : DecidableRel scoreGe := fun a b => inferInstanceAs (Decidable (b.score ≤ a.score))

instance : IsTotal ScoredObject scoreGe := ⟨fun a b => le_total b.score a.score⟩

instance : IsTrans ScoredObject scoreGe := ⟨fun _ _ _ hab hbc => le_trans hbc hab⟩

/-- The sorted scored-candidate list of `analyzeUserIntention`
(pen-selector.tsx lines 428-476). Insertion sort places an element before
those of equal score that originally followed it, matching the stable array
sort of the source. -/
def sortedScored (path : List Pt) (objects : List DetectedObject) : List ScoredObject :=
  List.insertionSort scoreGe (objects.map (scoreObject path))

/-- `meaningfulObjects` of pen-selector.tsx line 483: the sorted candidates
of score strictly above 0.3. -/
def meaningfulObjects (path : List Pt) (objects : List DetectedObject) : List ScoredObject :=
  (sortedScored path objects).filter (fun item => decide ((0.3 : ℚ) < item.score))

/-- The selection tail of `analyzeUserIntention` (pen-selector.tsx lines
485-499): empty when nothing is meaningful; only the top candidate when its
score exceeds the runner-up (0 when absent) by more than 0.2; otherwise the
top `min 3` candidates. -/
def selectFromMeaningful : List ScoredObject → List DetectedObject
  | [] => []
  | top :: rest =>
    let secondScore : ℚ := match rest with | [] => 0 | s :: _ => s.score
    if 0.2 < top.score - secondScore then [top.object]
    else ((top :: rest).take (min 3 (top :: rest).length)).map ScoredObject.object

/-- `analyzeUserIntention(path, objects)` of pen-selector.tsx lines 415-500:
the whole candidate list when the path is empty, otherwise the scored,
sorted, thresholded selection. -/
def analyzeUserIntention (path : List Pt) (objects : List DetectedObject) : List DetectedObject :=
  if path.isEmpty then objects
  else selectFromMeaningful (meaningfulObjects path objects)

/-- An integer pixel rectangle as reported in crop results. -/
structure BBoxI where
  x : ℤ
  y : ℤ
  width : ℤ
  height : ℤ
deriving DecidableEq, Repr

/-- The x coordinates extracted from a flat `[x0, y0, x1, y1, ...]`
segmentation array: elements at even indices, as pushed by the loop of
`cropObjectFromImage` (part_007 lines 44-47). -/
def xCoordsOf (points : List ℚ) : List ℚ :=
  (points.enum.filter (fun p => p.1 % 2 == 0)).map Prod.snd

/-- The y coordinates of a flat segmentation array: elements at odd
indices. On an odd-length array the source reads one `undefined` y and the
crop fails; theorems assume an even length. -/
def yCoordsOf (points : List ℚ) : List ℚ :=
  (points.enum.filter (fun p => p.1 % 2 == 1)).map Prod.snd

/-- The crop rectangle computed by `cropObjectFromImage` (part_007 lines
48-51): `minX = max(0, floor(min xs))`, `maxX = min(imgWidth, ceil(max
xs))`, and likewise for y. -/
structure CropRect where
  minX : ℤ
  minY : ℤ
  maxX : ℤ
  maxY : ℤ
deriving DecidableEq, Repr

/-- The clamped crop rectangle of `cropObjectFromImage` for a flat
segmentation array and image dimensions. -/
def cropRectOf (points : List ℚ) (imgWidth imgHeight : ℤ) : CropRect :=
  { minX := max 0 ⌊qMin (xCoordsOf points)⌋
    minY := max 0 ⌊qMin (yCoordsOf points)⌋
    maxX := min imgWidth ⌈qMax (xCoordsOf points)⌉
    maxY := min imgHeight ⌈qMax (yCoordsOf points)⌉ }

/-- Outcome of the crop endpoint: the fields of the source's `CropResult`
that the model can decide (the PNG bytes of the cropped object are outside
the model). -/
structure CropOutcome where
  success : Bool
  boundingBox : Option BBoxI
  error : Option String
deriving DecidableEq, Repr

/-- `cropObjectFromImage(request)` of part_007 lines 31-95 (equivalently
server/grok-image-service.ts), for an already-fetched image of the given
dimensions: computes the clamped rectangle and extracts it. The extract is
sharp's `extract`, whose documented contract throws unless the region has
positive width and height and lies inside the image; the source's `catch`
turns that throw into `success: false` with the error message. -/
def cropObjectFromImage (points : List ℚ) (imgWidth imgHeight : ℤ) : CropOutcome :=
  let r := cropRectOf points imgWidth imgHeight
  let cropWidth := r.maxX - r.minX
  let cropHeight := r.maxY - r.minY
  if 1 ≤ cropWidth ∧ 1 ≤ cropHeight ∧ 0 ≤ r.minX ∧ 0 ≤ r.minY ∧
     r.minX + cropWidth ≤ imgWidth ∧ r.minY + cropHeight ≤ imgHeight then
    { success := true
      boundingBox := some { x := r.minX, y := r.minY, width := cropWidth, height := cropHeight }
      error := none }
  else
    { success := false, boundingBox := none, error := some "Unknown cropping error" }

/-- SVG fill rules: `nonzero` is the SVG default when no `fill-rule`
attribute is written, `evenodd` must be requested explicitly. -/
inductive FillRule where
  | nonzero
  | evenodd
deriving DecidableEq, Repr

/-- Structural reading of an SVG mask document holding a single closed
`path` filled white on an otherwise empty (transparent) canvas: the canvas
dimensions, the `M`/`L` points of the path, and the effective fill rule. -/
structure SVGPathMask where
  width : ℚ
  height : ℚ
  pathPoints : List Pt
  fillRule : FillRule
deriving DecidableEq, Repr

/-- Consecutive points of a flat `[x0, y0, x1, y1, ...]` coordinate array. -/
def pairPoints : List ℚ → List Pt
  | x :: y :: rest => ⟨x, y⟩ :: pairPoints rest
  | _ => []

/-- `createSegmentationMaskSVG(segmentationCoords, width, height)` of
part_007 lines 578-587, read structurally: the emitted document is
`<svg width height><path d="M p0 L p1 ... Z" fill="white" stroke="none"/></svg>`.
No `fill-rule` attribute is written, so the SVG default `nonzero` applies
when the renderer fills the path. -/
def createSegmentationMaskSVG (segmentationCoords : List ℚ) (width height : ℚ) : SVGPathMask :=
  { width := width, height := height, pathPoints := pairPoints segmentationCoords,
    fillRule := FillRule.nonzero }

/-- Structural reading of the mask emitted by `extractObjectUsingSegmentation`
(part_007 lines 549-553) once the renderer has parsed its `d` string into
points: that document does write `fill-rule="evenodd"`. -/
def extractObjectMask (pathPoints : List Pt) (width height : ℚ) : SVGPathMask :=
  { width := width, height := height, pathPoints := pathPoints, fillRule := FillRule.evenodd }

/-- Directed closing edges of a closed SVG path (`Z` joins the last point
back to the first): consecutive pairs plus the closing pair. -/
def closedEdges (poly : List Pt) : List (Pt × Pt) :=
  match poly with
  | [] => []
  | p :: _ => poly.zip (poly.tail ++ [p])

/-- Signed contribution of one directed edge to the winding number of a
rightward ray from `p` (SVG `nonzero` fill rule): `+1` for an upward edge
crossing strictly left-to-the-point, `-1` for a downward one. -/
def windingDelta (p : Pt) (e : Pt × Pt) : ℤ :=
  let a := e.1
  let b := e.2
  let isLeft := (b.x - a.x) * (p.y - a.y) - (b.y - a.y) * (p.x - a.x)
  if a.y ≤ p.y ∧ p.y < b.y ∧ 0 < isLeft then 1
  else if b.y ≤ p.y ∧ p.y < a.y ∧ isLeft < 0 then -1
  else 0

/-- Winding number of a closed polygon around a point. -/
def windingNumber (p : Pt) (poly : List Pt) : ℤ :=
  ((closedEdges poly).map (windingDelta p)).sum

/-- Number of closing edges crossed by a rightward ray from `p`
(parity decides the SVG `evenodd` fill rule). -/
def crossingCount (p : Pt) (poly : List Pt) : ℕ :=
  (closedEdges poly).countP (fun e =>
    (decide (p.y < e.1.y) != decide (p.y < e.2.y)) &&
    decide (p.x < (e.2.x - e.1.x) * (p.y - e.1.y) / (e.2.y - e.1.y) + e.1.x))

/-- SVG fill semantics of a closed path at a point (for points not on an
edge): nonzero winding number, or odd crossing parity. -/
def filledUnder (rule : FillRule) (p : Pt) (poly : List Pt) : Bool :=
  match rule with
  | FillRule.nonzero => decide (windingNumber p poly ≠ 0)
  | FillRule.evenodd => decide (crossingCount p poly % 2 = 1)

/-- Value of a rendered SVG path mask at a point: `true` is the opaque
white fill of the path, `false` the untouched transparent background. -/
def maskValue (m : SVGPathMask) (p : Pt) : Bool :=
  filledUnder m.fillRule p m.pathPoints

/-- JS truthiness of an optional string field: `undefined` and the empty
string are falsy. -/
def strTruthy : Option String → Bool
  | none => false
  | some s => s ≠ ""

/-- Text of an optional error interpolated into a JS template literal
(`undefined` prints as the word). -/
def jsShow : Option String → String
  | none => "undefined"
  | some s => s

/-- Result of the client crop request in grok-replacement-service
(part_010 `CropResult`), as received from the backend. -/
structure ClientCropResult where
  success : Bool
  croppedImageBase64 : Option String
  boundingBox : Option BBoxI
  error : Option String
deriving DecidableEq, Repr

/-- Result of the client generation request (part_010 `GenerateResult`);
`processingTime` is irrelevant to control flow and omitted. -/
structure ClientGenerateResult where
  success : Bool
  generatedImageBase64 : Option String
  revisedPrompt : Option String
  error : Option String
deriving DecidableEq, Repr

/-- The `CompleteReplacementResult` record of part_010 lines 40-48. -/
structure CompleteReplacementResult where
  success : Bool
  finalImageBase64 : Option String := none
  croppedObject : Option String := none
  generatedReplacement : Option String := none
  boundingBox : Option BBoxI := none
  revisedPrompt : Option String := none
  error : Option String := none
deriving DecidableEq, Repr

/-- `replaceObjectStepByStep` of part_010 lines 164-224, as a function of
the outcomes of its two external calls (the crop request and the generation
request). Cropping failure returns a bare failure; generation failure
returns a failure that carries the cropped object image; on success the
components are returned with no final composite (placement is left to the
backend, line 208). -/
def replaceObjectStepByStep (cropResult : ClientCropResult)
    (generateResult : ClientGenerateResult) : CompleteReplacementResult :=
  if !(cropResult.success && strTruthy cropResult.croppedImageBase64) then
    { success := false, error := some ("Cropping failed: " ++ jsShow cropResult.error) }
  else if !(generateResult.success && strTruthy generateResult.generatedImageBase64) then
    { success := false, error := some ("Generation failed: " ++ jsShow generateResult.error)
      croppedObject := cropResult.croppedImageBase64 }
  else
    { success := true
      croppedObject := cropResult.croppedImageBase64
      generatedReplacement := generateResult.generatedImageBase64
      boundingBox := cropResult.boundingBox
      revisedPrompt := generateResult.revisedPrompt }

/-- Result of `generateSceneReplacement` (part_007 lines 99-140) as seen by
the scene-diff workflow. -/
structure SceneGenerationResult where
  success : Bool
  generatedImageBase64 : Option String
  revisedPrompt : Option String
  error : Option String
deriving DecidableEq, Repr

/-- Result of `extractImageDifferences` (part_007 lines 144-203). -/
structure DiffResult where
  success : Bool
  differenceImageBase64 : Option String
  error : Option String
deriving DecidableEq, Repr

/-- Result record of `replaceObjectWithSceneDiff` (part_007 lines 245-258). -/
structure SceneReplacementResult where
  success : Bool
  finalImageBase64 : Option String := none
  originalScene : Option String := none
  generatedScene : Option String := none
  extractedDifferences : Option String := none
  revisedPrompt : Option String := none
  error : Option String := none
deriving DecidableEq, Repr

/-- `replaceObjectWithSceneDiff` of part_007 lines 207-260 (equivalently
server/grok-image-service.ts), as a function of the fetched original image,
the outcomes of scene generation and difference extraction, and the final
sharp composite. A failed step throws and the `catch` returns only
`success: false` with the message: no partial image accompanies a
generation failure. -/
def replaceObjectWithSceneDiff (originalBase64 : String)
    (sceneResult : SceneGenerationResult) (diffResult : DiffResult)
    (compositedFinal : String) : SceneReplacementResult :=
  if !(sceneResult.success && strTruthy sceneResult.generatedImageBase64) then
    { success := false, error := some ("Scene generation failed: " ++ jsShow sceneResult.error) }
  else if !(diffResult.success && strTruthy diffResult.differenceImageBase64) then
    { success := false, error := some ("Difference extraction failed: " ++ jsShow diffResult.error) }
  else
    { success := true
      finalImageBase64 := some compositedFinal
      originalScene := some originalBase64
      generatedScene := sceneResult.generatedImageBase64
      extractedDifferences := diffResult.differenceImageBase64
      revisedPrompt := sceneResult.revisedPrompt }

/-! ## Shared lemmas -/

theorem iouRatio_comm (a b : DetectedObject) : iouRatio a b = iouRatio b a := by
  simp only [iouRatio]
  rw [min_comm (a.x + a.width) (b.x + b.width), max_comm a.x b.x,
    min_comm (a.y + a.height) (b.y + b.height), max_comm a.y b.y,
    add_comm (a.width * a.height) (b.width * b.height)]

theorem take_min_length {α : Type _} (l : List α) (n : ℕ) :
    l.take (min n l.length) = l.take n := by
  rcases le_total n l.length with h | h
  · rw [min_eq_left h]
  · rw [min_eq_right h, List.take_length, List.take_of_length_le h]

/-! ## Claim theorems -/

/-- C5: the intention resolver called with an empty drawing path returns the
full candidate list unchanged, order preserved. -/
theorem emptyPath_returnsAll_C5 (objects : List DetectedObject) :
    analyzeUserIntention [] objects = objects := rfl

/-- C9: the IoU value, and hence the overlap test of fusion, is symmetric
in its two bounding-box arguments at every threshold. -/
theorem overlapSymmetric_C9 (a b : DetectedObject) (t : ℚ) :
    iouRatio a b = iouRatio b a ∧ objectsOverlap a b t = objectsOverlap b a t := by
  refine ⟨iouRatio_comm a b, ?_⟩
  unfold objectsOverlap
  rw [iouRatio_comm a b]

/-- C6 (amended): fusion accepts exactly the highest-priority detections of
confidence at least 0.35 (the source comparison is `>=`, not strict), and
with no lower-priority detections the fused list is exactly those accepted
detections, tagged. -/
theorem yoloAcceptance_C6 (yoloObjects : List DetectedObject) (o : DetectedObject) :
    (o ∈ highConfidenceYolo yoloObjects ↔ o ∈ yoloObjects ∧ (0.35 : ℚ) ≤ o.confidence)
  ∧ hybridObjects yoloObjects [] = (highConfidenceYolo yoloObjects).map yoloTag := by
  constructor
  · simp [highConfidenceYolo, List.mem_filter]
  · simp [hybridObjects, processGoogleObjects]

/-- A highest-priority detection whose confidence equals the 0.35 threshold
exactly. -/
def y035 : DetectedObject :=
  { name := "chair", confidence := 0.35, x := 0, y := 0, width := 5, height := 5 }

/-- C6 counterexample: a detection of confidence exactly 0.35 does not
strictly exceed the threshold, yet fusion accepts it. -/
theorem yoloAcceptance_C6_cx :
    ¬ ((0.35 : ℚ) < y035.confidence) ∧ hybridObjects [y035] [] = [yoloTag y035] := by
  constructor
  · simp [y035]
  · simp [hybridObjects, processGoogleObjects, highConfidenceYolo, y035]

/-- Scenario detection: the polygon-capable detector reports a "table" at
confidence 0.5. -/
def tableYolo : DetectedObject :=
  { name := "table", confidence := 1/2, x := 0, y := 0, width := 10, height := 10 }

/-- Scenario detection: the bounding-box-only detector reports the same
"table" at confidence 0.9, its box overlapping the other at IoU 0.6. -/
def tableGoogle : DetectedObject :=
  { name := "table", confidence := 9/10, x := 0, y := 5/2, width := 10, height := 10 }

/-- C1 (amended): a lower-priority detection is discarded exactly when its
box overlaps some detection reported by the higher-priority detector —
accepted or not — with IoU strictly above 0.3, or strictly above 0.1 when
the lower-cased names coincide; the fused output keeps precisely the
non-discarded lower-priority detections, tagged, after the accepted
higher-priority ones; and in the 0.6-IoU same-object scenario fusion keeps
only the polygon-capable detection. -/
theorem fusionDedup_C1 (yoloObjects googleObjects : List DetectedObject) (g : DetectedObject) :
    (hasOverlapWithYolo g yoloObjects = true ↔
      ∃ y ∈ yoloObjects, 0.3 < iouRatio g y ∨
        (g.name.toLower = y.name.toLower ∧ 0.1 < iouRatio g y))
  ∧ processGoogleObjects yoloObjects googleObjects =
      (googleObjects.filter (fun g0 => !hasOverlapWithYolo g0 yoloObjects)).map googleTag
  ∧ (iouRatio tableGoogle tableYolo = 3/5 ∧
      hybridObjects [tableYolo] [tableGoogle] = [yoloTag tableYolo]) := by
  refine ⟨?_, ?_, ?_, ?_⟩
  · simp [hasOverlapWithYolo, objectsOverlap, List.any_eq_true]
  · induction googleObjects with
    | nil => rfl
    | cons g0 rest ih =>
      cases h : hasOverlapWithYolo g0 yoloObjects <;>
        simp [processGoogleObjects, h, ih]
  · norm_num [iouRatio, tableGoogle, tableYolo, min_def, max_def]
  · have hiou : iouRatio tableGoogle tableYolo = 3/5 := by
      norm_num [iouRatio, tableGoogle, tableYolo, min_def, max_def]
    have hover : hasOverlapWithYolo tableGoogle [tableYolo] = true := by
      simp [hasOverlapWithYolo, objectsOverlap, hiou]
      norm_num
    have haccept : highConfidenceYolo [tableYolo] = [tableYolo] := by
      simp [highConfidenceYolo, tableYolo]
      norm_num
    simp [hybridObjects, haccept, processGoogleObjects, hover]

/-- A highest-priority detection of confidence 0.1, below the 0.35
acceptance threshold: fusion does not accept it. -/
def lowYolo : DetectedObject :=
  { name := "tv", confidence := 1/10, x := 0, y := 0, width := 10, height := 10 }

/-- A lower-priority detection of a different name whose box coincides with
`lowYolo` (IoU 1). -/
def gObj : DetectedObject :=
  { name := "sofa", confidence := 9/10, x := 0, y := 0, width := 10, height := 10 }

/-- C1 counterexample: no higher-priority detection is accepted, yet the
lower-priority detection is discarded (the fused list is empty), because
the overlap test runs against all reported higher-priority detections, not
only the already-accepted ones. -/
theorem fusionDedup_C1_cx :
    highConfidenceYolo [lowYolo] = [] ∧
    (0.3 : ℚ) < iouRatio gObj lowYolo ∧
    hybridObjects [lowYolo] [gObj] = [] := by
  have hacc : highConfidenceYolo [lowYolo] = [] := by
    simp [highConfidenceYolo, lowYolo]
    norm_num
  have hiou : iouRatio gObj lowYolo = 1 := by
    norm_num [iouRatio, gObj, lowYolo, min_def, max_def]
  have hover : hasOverlapWithYolo gObj [lowYolo] = true := by
    simp [hasOverlapWithYolo, objectsOverlap, hiou]
    norm_num
  refine ⟨hacc, by rw [hiou]; norm_num, ?_⟩
  simp [hybridObjects, hacc, processGoogleObjects, hover]

/-- C4 (amended): when replacement-content generation fails after a
successful crop, the step-by-step workflow returns a failure whose only
partial artifact is the cropped-object image — not a cleaned
(object-removed) image, which does not exist yet since removal happens only
during placement after generation — and the scene-diff workflow returns a
failure carrying no image at all. -/
theorem generatorFailure_C4 (cropResult : ClientCropResult)
    (generateResult : ClientGenerateResult) (sceneOrig : String)
    (sceneResult : SceneGenerationResult) (diffResult : DiffResult) (fin : String)
    (hcrop : cropResult.success = true)
    (hcropImg : strTruthy cropResult.croppedImageBase64 = true)
    (hgen : (generateResult.success && strTruthy generateResult.generatedImageBase64) = false)
    (hscene : (sceneResult.success && strTruthy sceneResult.generatedImageBase64) = false) :
    replaceObjectStepByStep cropResult generateResult =
      { success := false
        croppedObject := cropResult.croppedImageBase64
        error := some ("Generation failed: " ++ jsShow generateResult.error) }
  ∧ replaceObjectWithSceneDiff sceneOrig sceneResult diffResult fin =
      { success := false
        error := some ("Scene generation failed: " ++ jsShow sceneResult.error) } := by
  constructor
  · simp [replaceObjectStepByStep, hcrop, hcropImg, hgen]
  · simp [replaceObjectWithSceneDiff, hscene]

/-- A successful crop outcome, as the step-by-step workflow sees it. -/
def cropOK : ClientCropResult :=
  { success := true, croppedImageBase64 := some "croppedPng"
    boundingBox := some { x := 1, y := 2, width := 3, height := 4 }, error := none }

/-- A failed generation outcome. -/
def genFail : ClientGenerateResult :=
  { success := false, generatedImageBase64 := none, revisedPrompt := none
    error := some "generator unavailable" }

/-- A failed scene-generation outcome. -/
def sceneFail : SceneGenerationResult :=
  { success := false, generatedImageBase64 := none, revisedPrompt := none
    error := some "generator unavailable" }

/-- An arbitrary difference-extraction outcome (never reached when scene
generation fails). -/
def diffAny : DiffResult :=
  { success := true, differenceImageBase64 := some "diffPng", error := none }

/-- C4 counterexample: at a concrete generation failure both replacement
workflows return a failure; the step-by-step result has no final image and
carries only the cropped object, and the scene-diff result carries no image
field at all — no cleaned (object-removed) image is returned. -/
theorem generatorFailure_C4_cx :
    replaceObjectStepByStep cropOK genFail =
      { success := false, finalImageBase64 := none, croppedObject := some "croppedPng"
        generatedReplacement := none, boundingBox := none, revisedPrompt := none
        error := some "Generation failed: generator unavailable" }
  ∧ replaceObjectWithSceneDiff "originalPng" sceneFail diffAny "finalPng" =
      { success := false, finalImageBase64 := none, originalScene := none
        generatedScene := none, extractedDifferences := none, revisedPrompt := none
        error := some "Scene generation failed: generator unavailable" } := by
  constructor
  · simp [replaceObjectStepByStep, cropOK, genFail, strTruthy, jsShow]
  · simp [replaceObjectWithSceneDiff, sceneFail, jsShow]

/-- C4 witness: the amended theorem applied at the concrete failure. -/
theorem generatorFailure_C4_witness :
    replaceObjectStepByStep cropOK genFail =
      { success := false
        croppedObject := cropOK.croppedImageBase64
        error := some ("Generation failed: " ++ jsShow genFail.error) }
  ∧ replaceObjectWithSceneDiff "originalPng" sceneFail diffAny "finalPng" =
      { success := false
        error := some ("Scene generation failed: " ++ jsShow sceneFail.error) } :=
  generatorFailure_C4 cropOK genFail "originalPng" sceneFail diffAny "finalPng"
    rfl (by simp [cropOK, strTruthy]) rfl rfl

/-- C8 (amended): the crop rectangle is clamped one-sidedly — each minimum
coordinate at 0 from below, each maximum at the image dimension from above;
whenever the polygon's coordinate range meets the image (its minimum
coordinate at most the dimension, its maximum at least 0) the corresponding
clamped values also lie inside [0, dimension]; and a rectangle of
nonpositive area after clamping makes the crop return a failure carrying an
error, never a silent success. -/
theorem cropClamp_C8 (points : List ℚ) (imgWidth imgHeight : ℤ)
    (hW : 0 ≤ imgWidth) (hH : 0 ≤ imgHeight) :
    (0 ≤ (cropRectOf points imgWidth imgHeight).minX ∧
     (cropRectOf points imgWidth imgHeight).maxX ≤ imgWidth ∧
     0 ≤ (cropRectOf points imgWidth imgHeight).minY ∧
     (cropRectOf points imgWidth imgHeight).maxY ≤ imgHeight)
  ∧ (qMin (xCoordsOf points) ≤ (imgWidth : ℚ) →
      (cropRectOf points imgWidth imgHeight).minX ≤ imgWidth)
  ∧ (0 ≤ qMax (xCoordsOf points) → 0 ≤ (cropRectOf points imgWidth imgHeight).maxX)
  ∧ (qMin (yCoordsOf points) ≤ (imgHeight : ℚ) →
      (cropRectOf points imgWidth imgHeight).minY ≤ imgHeight)
  ∧ (0 ≤ qMax (yCoordsOf points) → 0 ≤ (cropRectOf points imgWidth imgHeight).maxY)
  ∧ (((cropRectOf points imgWidth imgHeight).maxX - (cropRectOf points imgWidth imgHeight).minX) *
       ((cropRectOf points imgWidth imgHeight).maxY - (cropRectOf points imgWidth imgHeight).minY) ≤ 0 →
      (cropObjectFromImage points imgWidth imgHeight).success = false ∧
      (cropObjectFromImage points imgWidth imgHeight).error ≠ none) := by
  refine ⟨⟨le_max_left 0 _, min_le_left _ _, le_max_left 0 _, min_le_left _ _⟩,
    ?_, ?_, ?_, ?_, ?_⟩
  · intro h
    exact max_le hW (le_trans (Int.floor_mono h) (le_of_eq (Int.floor_intCast imgWidth)))
  · intro h
    exact le_min hW (Int.ceil_nonneg h)
  · intro h
    exact max_le hH (le_trans (Int.floor_mono h) (le_of_eq (Int.floor_intCast imgHeight)))
  · intro h
    exact le_min hH (Int.ceil_nonneg h)
  · intro harea
    unfold cropObjectFromImage
    have hcond : ¬ (1 ≤ (cropRectOf points imgWidth imgHeight).maxX -
        (cropRectOf points imgWidth imgHeight).minX ∧
        1 ≤ (cropRectOf points imgWidth imgHeight).maxY -
        (cropRectOf points imgWidth imgHeight).minY ∧
        0 ≤ (cropRectOf points imgWidth imgHeight).minX ∧
        0 ≤ (cropRectOf points imgWidth imgHeight).minY ∧
        (cropRectOf points imgWidth imgHeight).minX +
          ((cropRectOf points imgWidth imgHeight).maxX -
            (cropRectOf points imgWidth imgHeight).minX) ≤ imgWidth ∧
        (cropRectOf points imgWidth imgHeight).minY +
          ((cropRectOf points imgWidth imgHeight).maxY -
            (cropRectOf points imgWidth imgHeight).minY) ≤ imgHeight) := by
      rintro ⟨h1, h2, -⟩
      have : (0 : ℤ) <
          ((cropRectOf points imgWidth imgHeight).maxX - (cropRectOf points imgWidth imgHeight).minX) *
          ((cropRectOf points imgWidth imgHeight).maxY - (cropRectOf points imgWidth imgHeight).minY) :=
        mul_pos (lt_of_lt_of_le zero_lt_one h1) (lt_of_lt_of_le zero_lt_one h2)
      exact absurd harea (not_le.mpr this)
    rw [if_neg hcond]
    exact ⟨rfl, by simp⟩

/-- C8 counterexample: a polygon lying wholly to the right of a 1000-pixel
wide image leaves a crop rectangle whose left edge, 2000, is not in
[0, 1000] — clamping is only one-sided — and the crop reports failure. -/
theorem cropClamp_C8_cx :
    (cropRectOf [2000, 50, 2010, 60] 1000 1000).minX = 2000 ∧
    ¬ ((cropRectOf [2000, 50, 2010, 60] 1000 1000).minX ≤ 1000) ∧
    (cropObjectFromImage [2000, 50, 2010, 60] 1000 1000).success = false := by
  have hrect : cropRectOf [2000, 50, 2010, 60] 1000 1000 =
      { minX := 2000, minY := 50, maxX := 1000, maxY := 60 } := by
    norm_num [cropRectOf, xCoordsOf, yCoordsOf, qMin, qMax, List.enum]
  refine ⟨by rw [hrect], by rw [hrect]; norm_num, ?_⟩
  unfold cropObjectFromImage
  rw [hrect]
  norm_num

/-- C8 witness: the amended theorem applied to a degenerate vertical-segment
polygon inside a 100x100 image (zero-width rectangle, failing crop). -/
theorem cropClamp_C8_witness :
    (0 ≤ (cropRectOf [5, 5, 5, 9] 100 100).minX ∧
     (cropRectOf [5, 5, 5, 9] 100 100).maxX ≤ 100 ∧
     0 ≤ (cropRectOf [5, 5, 5, 9] 100 100).minY ∧
     (cropRectOf [5, 5, 5, 9] 100 100).maxY ≤ 100)
  ∧ (qMin (xCoordsOf [5, 5, 5, 9]) ≤ (100 : ℚ) →
      (cropRectOf [5, 5, 5, 9] 100 100).minX ≤ 100)
  ∧ (0 ≤ qMax (xCoordsOf [5, 5, 5, 9]) → 0 ≤ (cropRectOf [5, 5, 5, 9] 100 100).maxX)
  ∧ (qMin (yCoordsOf [5, 5, 5, 9]) ≤ (100 : ℚ) →
      (cropRectOf [5, 5, 5, 9] 100 100).minY ≤ 100)
  ∧ (0 ≤ qMax (yCoordsOf [5, 5, 5, 9]) → 0 ≤ (cropRectOf [5, 5, 5, 9] 100 100).maxY)
  ∧ (((cropRectOf [5, 5, 5, 9] 100 100).maxX - (cropRectOf [5, 5, 5, 9] 100 100).minX) *
       ((cropRectOf [5, 5, 5, 9] 100 100).maxY - (cropRectOf [5, 5, 5, 9] 100 100).minY) ≤ 0 →
      (cropObjectFromImage [5, 5, 5, 9] 100 100).success = false ∧
      (cropObjectFromImage [5, 5, 5, 9] 100 100).error ≠ none) :=
  cropClamp_C8 [5, 5, 5, 9] 100 100 (by decide) (by decide)

theorem mem_closedEdges {poly : List Pt} {e : Pt × Pt} (he : e ∈ closedEdges poly) :
    e.1 ∈ poly ∧ e.2 ∈ poly := by
  cases poly with
  | nil => simp [closedEdges] at he
  | cons p ps =>
    unfold closedEdges at he
    have h1 := (List.of_mem_zip he).1
    have h2 := (List.of_mem_zip he).2
    refine ⟨h1, ?_⟩
    rcases List.mem_append.mp h2 with h | h
    · exact List.mem_of_mem_tail h
    · simp only [List.mem_singleton] at h
      rw [h]
      exact List.mem_cons_self p ps

/-- C7 (amended): the mask generated from a coordinate-list polygon has
exactly the target dimensions and fills the path white against a background
that stays transparent (a point below every vertex is unfilled); but the
emitted path carries no `fill-rule` attribute, so self-intersecting
polygons are filled under the SVG default nonzero winding rule, not
even-odd — even-odd applies only to the separate SVG-path-string mask of
`extractObjectUsingSegmentation`. -/
theorem rasterizeMask_C7 (coords : List ℚ) (w h : ℚ) (p : Pt) :
    ((createSegmentationMaskSVG coords w h).width = w ∧
     (createSegmentationMaskSVG coords w h).height = h)
  ∧ (createSegmentationMaskSVG coords w h).fillRule = FillRule.nonzero
  ∧ maskValue (createSegmentationMaskSVG coords w h) p =
      decide (windingNumber p (pairPoints coords) ≠ 0)
  ∧ ((∀ q ∈ pairPoints coords, p.y < q.y) →
      maskValue (createSegmentationMaskSVG coords w h) p = false)
  ∧ (extractObjectMask (pairPoints coords) w h).fillRule = FillRule.evenodd := by
  refine ⟨⟨rfl, rfl⟩, rfl, rfl, ?_, rfl⟩
  intro hbelow
  have hzero : windingNumber p (pairPoints coords) = 0 := by
    unfold windingNumber
    apply List.sum_eq_zero
    intro d hd
    rcases List.mem_map.mp hd with ⟨e, he, rfl⟩
    have hm := mem_closedEdges he
    have ha : ¬ e.1.y ≤ p.y := not_le.mpr (hbelow e.1 hm.1)
    have hb : ¬ e.2.y ≤ p.y := not_le.mpr (hbelow e.2 hm.2)
    simp [windingDelta, ha, hb]
  simp [maskValue, createSegmentationMaskSVG, filledUnder, hzero]

/-- A self-intersecting five-point star polygon, flat coordinate list. -/
def pentagram : List ℚ := [0, 3, 2, -3, -3, 1, 3, 1, -2, -3]

/-- C7 counterexample: at the center of a self-intersecting pentagram the
generated coordinate-list mask is filled (winding number ±2 under the
default nonzero rule), while even-odd semantics would leave it unfilled
(ray crossing parity even) — so the rasterizer does not use even-odd
winding. -/
theorem rasterizeMask_C7_cx :
    maskValue (createSegmentationMaskSVG pentagram 10 10) { x := 0, y := 0 } = true ∧
    filledUnder FillRule.evenodd { x := 0, y := 0 } (pairPoints pentagram) = false := by
  have hpts : pairPoints pentagram =
      [{ x := 0, y := 3 }, { x := 2, y := -3 }, { x := -3, y := 1 },
       { x := 3, y := 1 }, { x := -2, y := -3 }] := by
    simp [pentagram, pairPoints]
  constructor
  · have hw : windingNumber { x := 0, y := 0 } (pairPoints pentagram) = -2 := by
      rw [hpts]
      norm_num [windingNumber, closedEdges, windingDelta, List.zip]
    simp [maskValue, createSegmentationMaskSVG, filledUnder, hw]
  · have hc : crossingCount { x := 0, y := 0 } (pairPoints pentagram) = 2 := by
      rw [hpts]
      norm_num [crossingCount, closedEdges, List.countP, List.countP.go, List.zip]
    simp [filledUnder, hc]

/-- C7 witness: the amended theorem applied to the pentagram and a point
below all of its vertices. -/
theorem rasterizeMask_C7_witness :
    ((createSegmentationMaskSVG pentagram 10 10).width = 10 ∧
     (createSegmentationMaskSVG pentagram 10 10).height = 10)
  ∧ (createSegmentationMaskSVG pentagram 10 10).fillRule = FillRule.nonzero
  ∧ maskValue (createSegmentationMaskSVG pentagram 10 10) { x := 0, y := -7 } =
      decide (windingNumber { x := 0, y := -7 } (pairPoints pentagram) ≠ 0)
  ∧ ((∀ q ∈ pairPoints pentagram, (-7 : ℚ) < q.y) →
      maskValue (createSegmentationMaskSVG pentagram 10 10) { x := 0, y := -7 } = false)
  ∧ (extractObjectMask (pairPoints pentagram) 10 10).fillRule = FillRule.evenodd :=
  rasterizeMask_C7 pentagram 10 10 { x := 0, y := -7 }

theorem sqrtQ_nonneg (q : ℚ) : 0 ≤ sqrtQ q := by
  unfold sqrtQ
  split
  · exact le_refl 0
  · exact div_nonneg (Nat.cast_nonneg _) (Nat.cast_nonneg _)

theorem sqrtQ_mul_self (d : ℚ) (hd : 0 ≤ d) : sqrtQ (d * d) = d := by
  rcases eq_or_lt_of_le hd with h0 | hpos
  · rw [← h0]
    norm_num [sqrtQ]
  · have hdd : 0 < d * d := mul_pos hpos hpos
    rw [sqrtQ, if_neg (not_le.mpr hdd)]
    rw [Rat.mul_self_num, Rat.mul_self_den]
    have hnum : 0 ≤ d.num := Rat.num_nonneg.mpr hd
    obtain ⟨n, hn⟩ := Int.eq_ofNat_of_zero_le hnum
    rw [hn]
    have h1 : ((n : ℤ) * n).toNat = n * n := by
      rw [← Nat.cast_mul, Int.toNat_natCast]
    rw [h1, Nat.sqrt_eq, Nat.sqrt_eq]
    conv_rhs => rw [← Rat.num_div_den d, hn]
    norm_num

theorem foldl_min_le (l : List ℚ) (a : ℚ) : l.foldl min a ≤ a := by
  induction l generalizing a with
  | nil => exact le_refl a
  | cons x xs ih => exact le_trans (ih (min a x)) (min_le_left a x)

theorem le_foldl_max (l : List ℚ) (a : ℚ) : a ≤ l.foldl max a := by
  induction l generalizing a with
  | nil => exact le_refl a
  | cons x xs ih => exact le_trans (le_max_left a x) (ih (max a x))

theorem qMin_le_qMax (l : List ℚ) (hl : l ≠ []) : qMin l ≤ qMax l := by
  cases l with
  | nil => exact absurd rfl hl
  | cons a as => exact le_trans (foldl_min_le as a) (le_foldl_max as a)

theorem getPathBounds_nonneg (path : List Pt) :
    0 ≤ (getPathBounds path).width ∧ 0 ≤ (getPathBounds path).height := by
  unfold getPathBounds
  cases path with
  | nil => simp
  | cons p ps =>
    simp only [List.isEmpty_cons, if_neg]
    constructor
    · exact sub_nonneg.mpr (qMin_le_qMax _ (by simp))
    · exact sub_nonneg.mpr (qMin_le_qMax _ (by simp))

theorem minmax_ratio_bounds (a b : ℚ) (ha : 0 ≤ a) (hb : 0 ≤ b) :
    0 ≤ min a b / max a b ∧ min a b / max a b ≤ 1 := by
  by_cases hmax : max a b = 0
  · have hmin : min a b = 0 :=
      le_antisymm (le_trans min_le_max (le_of_eq hmax)) (le_min ha hb)
    rw [hmin, hmax]
    norm_num
  · have hpos : 0 < max a b := lt_of_le_of_ne (le_trans ha (le_max_left a b)) (Ne.symm hmax)
    exact ⟨div_nonneg (le_min ha hb) hpos.le, (div_le_one hpos).mpr min_le_max⟩

set_option maxRecDepth 4000 in
theorem enclosure_bounds (path : List Pt) (obj : DetectedObject) :
    0 ≤ calculateEnclosureScore path obj ∧ calculateEnclosureScore path obj ≤ 1 := by
  simp only [calculateEnclosureScore]
  constructor
  · exact div_nonneg (Nat.cast_nonneg _) (by norm_num)
  · rw [div_le_one (by norm_num)]
    have h1 : List.countP
        (fun p => isPointInPath (obj.x + obj.width * (p.1 : ℚ) / ((15 : ℚ) - 1))
          (obj.y + obj.height * (p.2 : ℚ) / ((15 : ℚ) - 1)) path)
        ((List.range 15).flatMap (fun i => (List.range 15).map (fun j => (i, j)))) ≤ 225 :=
      le_trans (List.countP_le_length _) (by decide)
    calc ((List.countP _ _ : ℕ) : ℚ) ≤ (225 : ℚ) := by exact_mod_cast h1
      _ = (15 : ℚ) * 15 := by norm_num

theorem containment_bounds (path : List Pt) (obj : DetectedObject) :
    0 ≤ calculateContainmentScore path obj ∧ calculateContainmentScore path obj ≤ 1 := by
  simp only [calculateContainmentScore]
  constructor
  · exact div_nonneg (Nat.cast_nonneg _) (Nat.cast_nonneg _)
  · have h4 : (List.length [(⟨obj.x, obj.y⟩ : Pt), ⟨obj.x + obj.width, obj.y⟩,
        ⟨obj.x + obj.width, obj.y + obj.height⟩, ⟨obj.x, obj.y + obj.height⟩] : ℚ) = 4 := by
      simp
    rw [h4, div_le_one (by norm_num)]
    have hle := List.length_filter_le (fun c : Pt => isPointInPath c.x c.y path)
      [(⟨obj.x, obj.y⟩ : Pt), ⟨obj.x + obj.width, obj.y⟩,
       ⟨obj.x + obj.width, obj.y + obj.height⟩, ⟨obj.x, obj.y + obj.height⟩]
    calc ((List.filter _ _).length : ℚ) ≤ ((4 : ℕ) : ℚ) := by exact_mod_cast hle
      _ = 4 := by norm_num

theorem scoreObject_factors (path : List Pt) (obj : DetectedObject) :
    (scoreObject path obj).factors =
      { enclosure := calculateEnclosureScore path obj
        distance := 1 - sqrtQ (centerDistSq path obj) / max (sqrtQ (pathDiagSq path)) 1
        size := min ((getPathBounds path).width * (getPathBounds path).height)
            (obj.width * obj.height) /
          max ((getPathBounds path).width * (getPathBounds path).height)
            (obj.width * obj.height)
        confidence := obj.confidence
        containment := calculateContainmentScore path obj } := rfl

/-- C3 (amended): for a non-empty drawing path and a candidate with
nonnegative box dimensions and confidence in [0,1], the enclosure, size,
confidence and containment factors lie in [0,1]; the distance factor is at
most 1 but can be negative, and it equals 1 minus the Euclidean distance
from the path-bounds center to the candidate center divided by
`max(diagonal, 1)` — the path's diagonal clamped below at 1 — not by the
bare diagonal. -/
theorem intentionFactors_C3 (path : List Pt) (obj : DetectedObject) (hpath : path ≠ [])
    (hc0 : 0 ≤ obj.confidence) (hc1 : obj.confidence ≤ 1)
    (hw : 0 ≤ obj.width) (hh : 0 ≤ obj.height) :
    (0 ≤ (scoreObject path obj).factors.enclosure ∧ (scoreObject path obj).factors.enclosure ≤ 1)
  ∧ (0 ≤ (scoreObject path obj).factors.size ∧ (scoreObject path obj).factors.size ≤ 1)
  ∧ (0 ≤ (scoreObject path obj).factors.confidence ∧ (scoreObject path obj).factors.confidence ≤ 1)
  ∧ (0 ≤ (scoreObject path obj).factors.containment ∧
      (scoreObject path obj).factors.containment ≤ 1)
  ∧ (scoreObject path obj).factors.distance ≤ 1
  ∧ (∀ d m : ℚ, 0 ≤ d → d * d = centerDistSq path obj → 0 ≤ m → m * m = pathDiagSq path →
      (scoreObject path obj).factors.distance = 1 - d / max m 1) := by
  rw [scoreObject_factors]
  refine ⟨enclosure_bounds path obj, ?_, ⟨hc0, hc1⟩, containment_bounds path obj, ?_, ?_⟩
  · exact minmax_ratio_bounds _ _
      (mul_nonneg (getPathBounds_nonneg path).1 (getPathBounds_nonneg path).2)
      (mul_nonneg hw hh)
  · have hnum : 0 ≤ sqrtQ (centerDistSq path obj) := sqrtQ_nonneg _
    have hden : (0 : ℚ) < max (sqrtQ (pathDiagSq path)) 1 :=
      lt_of_lt_of_le zero_lt_one (le_max_right _ 1)
    simp only
    linarith [div_nonneg hnum hden.le]
  · intro d m hd hdsq hm hmsq
    simp only
    rw [← hdsq, ← hmsq, sqrtQ_mul_self d hd, sqrtQ_mul_self m hm]

/-- A one-point drawing path at the origin. -/
def cpath3 : List Pt := [{ x := 0, y := 0 }]

/-- A zero-size candidate centered at (2, 0), two units from the path. -/
def cObj3 : DetectedObject :=
  { name := "x", confidence := 1, x := 2, y := 0, width := 0, height := 0 }

/-- C3 counterexample: for this path and candidate the Euclidean distance
(2) exceeds `max(diagonal, 1) = 1`, so the distance factor is negative
(namely -1), refuting that all five factors lie in [0,1]. -/
theorem intentionFactors_C3_cx : (scoreObject cpath3 cObj3).factors.distance < 0 := by
  have hdist : (scoreObject cpath3 cObj3).factors.distance =
      1 - sqrtQ (centerDistSq cpath3 cObj3) / max (sqrtQ (pathDiagSq cpath3)) 1 := rfl
  have hd4 : centerDistSq cpath3 cObj3 = (2 : ℚ) * 2 := by
    norm_num [centerDistSq, getPathBounds, cpath3, cObj3, qMin, qMax]
  have hm0 : pathDiagSq cpath3 = 0 := by
    norm_num [pathDiagSq, getPathBounds, cpath3, qMin, qMax]
  have hs0 : sqrtQ 0 = 0 := by norm_num [sqrtQ]
  rw [hdist, hd4, hm0, sqrtQ_mul_self 2 (by norm_num), hs0]
  norm_num

/-- A candidate for the factor-bounds witness: zero confidence, zero-size
box. -/
def wObj3 : DetectedObject :=
  { name := "w", confidence := 0, x := 1, y := 1, width := 0, height := 0 }

/-- A two-point drawing path with diagonal 5 for the witness. -/
def wPath3 : List Pt := [{ x := 0, y := 0 }, { x := 3, y := 4 }]

/-- C3 witness: the amended theorem applied to a concrete path and
candidate. -/
theorem intentionFactors_C3_witness :
    (0 ≤ (scoreObject wPath3 wObj3).factors.enclosure ∧
      (scoreObject wPath3 wObj3).factors.enclosure ≤ 1)
  ∧ (0 ≤ (scoreObject wPath3 wObj3).factors.size ∧ (scoreObject wPath3 wObj3).factors.size ≤ 1)
  ∧ (0 ≤ (scoreObject wPath3 wObj3).factors.confidence ∧
      (scoreObject wPath3 wObj3).factors.confidence ≤ 1)
  ∧ (0 ≤ (scoreObject wPath3 wObj3).factors.containment ∧
      (scoreObject wPath3 wObj3).factors.containment ≤ 1)
  ∧ (scoreObject wPath3 wObj3).factors.distance ≤ 1
  ∧ (∀ d m : ℚ, 0 ≤ d → d * d = centerDistSq wPath3 wObj3 → 0 ≤ m →
      m * m = pathDiagSq wPath3 →
      (scoreObject wPath3 wObj3).factors.distance = 1 - d / max m 1) :=
  intentionFactors_C3 wPath3 wObj3 (by simp [wPath3]) (le_of_eq rfl) zero_le_one
    (le_of_eq rfl) (le_of_eq rfl)

theorem analyzeUserIntention_of_ne_nil (path : List Pt) (objects : List DetectedObject)
    (h : path ≠ []) :
    analyzeUserIntention path objects = selectFromMeaningful (meaningfulObjects path objects) := by
  unfold analyzeUserIntention
  rw [if_neg (by simp [List.isEmpty_iff, h])]

theorem meaningful_perm (path : List Pt) (objects : List DetectedObject) :
    (meaningfulObjects path objects).Perm
      ((objects.map (scoreObject path)).filter (fun s => decide ((0.3 : ℚ) < s.score))) :=
  (List.perm_insertionSort scoreGe _).filter _

theorem mem_meaningful {path : List Pt} {objects : List DetectedObject} {s : ScoredObject}
    (hs : s ∈ meaningfulObjects path objects) :
    s.object ∈ objects ∧ s = scoreObject path s.object ∧ (0.3 : ℚ) < s.score := by
  have h1 : s ∈ (objects.map (scoreObject path)).filter (fun s => decide ((0.3 : ℚ) < s.score)) :=
    (meaningful_perm path objects).mem_iff.mp hs
  have h2 := List.mem_filter.mp h1
  rcases List.mem_map.mp h2.1 with ⟨o, ho, rfl⟩
  exact ⟨ho, rfl, of_decide_eq_true h2.2⟩

theorem sorted_meaningful (path : List Pt) (objects : List DetectedObject) :
    List.Sorted scoreGe (meaningfulObjects path objects) :=
  (List.sorted_insertionSort scoreGe _).filter _

theorem selectFromMeaningful_sub (l : List ScoredObject) (o : DetectedObject)
    (ho : o ∈ selectFromMeaningful l) : ∃ s ∈ l, s.object = o := by
  cases l with
  | nil => simp [selectFromMeaningful] at ho
  | cons top rest =>
    simp only [selectFromMeaningful] at ho
    split at ho
    · simp only [List.mem_singleton] at ho
      exact ⟨top, List.mem_cons_self top rest, ho.symm⟩
    · rw [take_min_length] at ho
      rcases List.mem_map.mp ho with ⟨s, hs, hso⟩
      exact ⟨s, List.take_subset 3 _ hs, hso⟩

theorem length_selectFromMeaningful (l : List ScoredObject) :
    (selectFromMeaningful l).length ≤ 3 := by
  cases l with
  | nil => simp [selectFromMeaningful]
  | cons top rest =>
    simp only [selectFromMeaningful]
    split
    · simp
    · rw [take_min_length]
      simp only [List.length_map, List.length_take]
      exact min_le_left 3 _

/-- C2: for each non-empty drawing path the resolver excludes every
candidate scoring at most 0.3, returns at most three objects, and the
retained candidates are sorted by descending score; whenever a second-best
candidate exists, a gap of more than 0.2 below the top score yields the top
candidate alone, and otherwise the top three (at most) are returned. -/
theorem intentionSelection_C2 (path : List Pt) (objects : List DetectedObject)
    (hpath : path ≠ []) :
    (∀ o, (scoreObject path o).score ≤ 0.3 → o ∉ analyzeUserIntention path objects)
  ∧ (analyzeUserIntention path objects).length ≤ 3
  ∧ List.Sorted scoreGe (meaningfulObjects path objects)
  ∧ (∀ top second rest, meaningfulObjects path objects = top :: second :: rest →
      (0.2 < top.score - second.score → analyzeUserIntention path objects = [top.object])
      ∧ (¬ (0.2 < top.score - second.score) →
          analyzeUserIntention path objects =
            ((top :: second :: rest).take 3).map ScoredObject.object)) := by
  rw [analyzeUserIntention_of_ne_nil path objects hpath]
  refine ⟨?_, length_selectFromMeaningful _, sorted_meaningful path objects, ?_⟩
  · intro o hle hmem
    obtain ⟨s, hs, hso⟩ := selectFromMeaningful_sub _ o hmem
    have hm := mem_meaningful hs
    have h3 : (0.3 : ℚ) < (scoreObject path s.object).score := by
      rw [← hm.2.1]
      exact hm.2.2
    rw [hso] at h3
    linarith
  · intro top second rest hm
    rw [hm]
    constructor
    · intro hgap
      simp only [selectFromMeaningful]
      rw [if_pos hgap]
    · intro hgap
      simp only [selectFromMeaningful]
      rw [if_neg hgap, take_min_length]

/-- C2 witness: the theorem applied to a concrete triangular path and an
empty candidate list. -/
theorem intentionSelection_C2_witness :
    (∀ o, (scoreObject [{ x := 0, y := 0 }, { x := 10, y := 0 }, { x := 10, y := 10 }] o).score ≤ 0.3 →
      o ∉ analyzeUserIntention [{ x := 0, y := 0 }, { x := 10, y := 0 }, { x := 10, y := 10 }] [])
  ∧ (analyzeUserIntention [{ x := 0, y := 0 }, { x := 10, y := 0 }, { x := 10, y := 10 }] []).length ≤ 3
  ∧ List.Sorted scoreGe
      (meaningfulObjects [{ x := 0, y := 0 }, { x := 10, y := 0 }, { x := 10, y := 10 }] [])
  ∧ (∀ top second rest,
      meaningfulObjects [{ x := 0, y := 0 }, { x := 10, y := 0 }, { x := 10, y := 10 }] [] =
        top :: second :: rest →
      (0.2 < top.score - second.score →
        analyzeUserIntention [{ x := 0, y := 0 }, { x := 10, y := 0 }, { x := 10, y := 10 }] [] =
          [top.object])
      ∧ (¬ (0.2 < top.score - second.score) →
          analyzeUserIntention [{ x := 0, y := 0 }, { x := 10, y := 0 }, { x := 10, y := 10 }] [] =
            ((top :: second :: rest).take 3).map ScoredObject.object)) :=
  intentionSelection_C2 [{ x := 0, y := 0 }, { x := 10, y := 0 }, { x := 10, y := 10 }] []
    (by simp)

/-- C10: for a non-empty path, when exactly one candidate scores strictly
above the 0.3 cutoff and its score also exceeds 0.5, the resolver returns
exactly that candidate alone (the missing runner-up counts as score 0, so
the 0.2-gap rule fires); and the resolver never returns an empty list while
some candidate scores above the cutoff. -/
theorem singleCandidate_C10 (path : List Pt) (objects : List DetectedObject)
    (hpath : path ≠ []) :
    (∀ o, objects.filter (fun o0 => decide ((0.3 : ℚ) < (scoreObject path o0).score)) = [o] →
        (0.5 : ℚ) < (scoreObject path o).score → analyzeUserIntention path objects = [o])
  ∧ ((∃ o ∈ objects, (0.3 : ℚ) < (scoreObject path o).score) →
      analyzeUserIntention path objects ≠ []) := by
  have hfm : (objects.map (scoreObject path)).filter (fun s => decide ((0.3 : ℚ) < s.score)) =
      (objects.filter (fun o0 => decide ((0.3 : ℚ) < (scoreObject path o0).score))).map
        (scoreObject path) := by
    rw [List.filter_map]
    rfl
  constructor
  · intro o hfilter hscore
    have hperm : (meaningfulObjects path objects).Perm [scoreObject path o] := by
      have h1 := meaningful_perm path objects
      rw [hfm, hfilter] at h1
      simpa using h1
    have hm : meaningfulObjects path objects = [scoreObject path o] :=
      List.perm_singleton.mp hperm
    rw [analyzeUserIntention_of_ne_nil path objects hpath, hm]
    simp only [selectFromMeaningful]
    rw [if_pos (by linarith : (0.2 : ℚ) < (scoreObject path o).score - 0)]
    rfl
  · rintro ⟨o, ho, hsc⟩
    have hmem : scoreObject path o ∈ meaningfulObjects path objects :=
      (meaningful_perm path objects).mem_iff.mpr
        (List.mem_filter.mpr ⟨List.mem_map_of_mem _ ho, decide_eq_true hsc⟩)
    rw [analyzeUserIntention_of_ne_nil path objects hpath]
    cases hm : meaningfulObjects path objects with
    | nil =>
      rw [hm] at hmem
      exact absurd hmem (List.not_mem_nil _)
    | cons top rest =>
      simp only [selectFromMeaningful]
      split
      · simp
      · rw [take_min_length]
        cases rest <;> simp

/-- C10 witness: the theorem applied to a concrete square path and a single
chair candidate. -/
theorem singleCandidate_C10_witness :
    (∀ o, ([({ name := "chair", confidence := 9/10, x := 2, y := 2, width := 6, height := 6 } :
        DetectedObject)].filter (fun o0 => decide ((0.3 : ℚ) <
          (scoreObject [{ x := 0, y := 0 }, { x := 10, y := 0 }, { x := 10, y := 10 },
            { x := 0, y := 10 }] o0).score)) = [o]) →
      (0.5 : ℚ) < (scoreObject [{ x := 0, y := 0 }, { x := 10, y := 0 }, { x := 10, y := 10 },
        { x := 0, y := 10 }] o).score →
      analyzeUserIntention [{ x := 0, y := 0 }, { x := 10, y := 0 }, { x := 10, y := 10 },
        { x := 0, y := 10 }]
        [{ name := "chair", confidence := 9/10, x := 2, y := 2, width := 6, height := 6 }] = [o])
  ∧ ((∃ o ∈ [({ name := "chair", confidence := 9/10, x := 2, y := 2, width := 6, height := 6 } :
        DetectedObject)], (0.3 : ℚ) < (scoreObject [{ x := 0, y := 0 }, { x := 10, y := 0 },
          { x := 10, y := 10 }, { x := 0, y := 10 }] o).score) →
      analyzeUserIntention [{ x := 0, y := 0 }, { x := 10, y := 0 }, { x := 10, y := 10 },
        { x := 0, y := 10 }]
        [{ name := "chair", confidence := 9/10, x := 2, y := 2, width := 6, height := 6 }] ≠ []) :=
  singleCandidate_C10 [{ x := 0, y := 0 }, { x := 10, y := 0 }, { x := 10, y := 10 },
    { x := 0, y := 10 }]
    [{ name := "chair", confidence := 9/10, x := 2, y := 2, width := 6, height := 6 }] (by simp)
